import Mathlib

/-!
Shallow embedding of the portfolio repository's entity synchronization and
mutation hooks: the per-operation rate limiter, the connectivity/auth gate,
the validated mutation functions (testimonials, about-me, contact), and the
cached fetchers.  Times are epoch milliseconds modelled as `Nat`; the remote
backend (Firestore) is modelled as explicit data passed in, and remote calls
are recorded as an explicit effect list.
-/

namespace Portfolio

/-- The three mutation kinds rate-limited by every manager hook. -/
inductive Operation where
  | create
  | update
  | delete
deriving DecidableEq, Repr

/-- `RateLimitInfo` from the manager hooks: a count and a resetTime (epoch ms). -/
structure RateLimitInfo where
  count : Nat
  resetTime : Nat
deriving DecidableEq, Repr

/-- The `rateLimitInfo` record held in each manager's state: one
`RateLimitInfo` per operation kind. -/
structure RateLimitState where
  createInfo : RateLimitInfo
  updateInfo : RateLimitInfo
  deleteInfo : RateLimitInfo
deriving DecidableEq, Repr

/-- `state.rateLimitInfo[operation]`. -/
def getInfo (st : RateLimitState) : Operation → RateLimitInfo
  | .create => st.createInfo
  | .update => st.updateInfo
  | .delete => st.deleteInfo

/-- The merge-style state update `{...prev.rateLimitInfo, [operation]: info}`. -/
def setInfo (st : RateLimitState) : Operation → RateLimitInfo → RateLimitState
  | .create, info => { st with createInfo := info }
  | .update, info => { st with updateInfo := info }
  | .delete, info => { st with deleteInfo := info }

/-- The `RATE_LIMITS` constant of the testimonial, about-me and projects
manager hooks: create=5, update=10, delete=3 per minute. -/
def RATE_LIMITS : Operation → Nat
  | .create => 5
  | .update => 10
  | .delete => 3

/-- The `RATE_LIMITS` constant of the contact manager hook
(`use-authenticated-connect-manager.ts`): update allows 15 per minute. -/
def CONTACT_RATE_LIMITS : Operation → Nat
  | .create => 5
  | .update => 15
  | .delete => 3

/-- The operation name interpolated into the rate-limit error message. -/
def opName : Operation → String
  | .create => "create"
  | .update => "update"
  | .delete => "delete"

/-- The error message thrown when the quota is exceeded, with
`secondsRemaining = Math.ceil((resetTime - now) / 1000)`. -/
def rateLimitMessage (op : Operation) (secondsRemaining : Nat) : String :=
  "Rate limit exceeded for " ++ opName op ++ " operation. Please wait " ++
    toString secondsRemaining ++ " seconds before trying again."

/-- `checkRateLimit` from the manager hooks.  If `now >= resetTime` the
counter is reset to 0 with a fresh window and the call proceeds; else if
`count >= limit` an error stating the remaining wait is thrown; else the
counter is incremented.  Returns the updated `rateLimitInfo` state. -/
def checkRateLimit (limits : Operation → Nat) (now : Nat) (op : Operation)
    (st : RateLimitState) : Except String RateLimitState :=
  if (getInfo st op).resetTime ≤ now then
    .ok (setInfo st op { count := 0, resetTime := now + 60000 })
  else if limits op ≤ (getInfo st op).count then
    .error (rateLimitMessage op (((getInfo st op).resetTime - now + 999) / 1000))
  else
    .ok (setInfo st op
      { count := (getInfo st op).count + 1, resetTime := (getInfo st op).resetTime })

/-- The connectivity / authentication part of each manager's state:
`isOnline`, `authChecking`, and the signed-in user id (if any). -/
structure GateState where
  isOnline : Bool
  authChecking : Bool
  user : Option String
deriving DecidableEq, Repr

/-- Error message when `isOnline` is false. -/
def offlineMessage : String :=
  "No internet connection. Please check your network and try again."

/-- Error message while the auth observer has not yet fired. -/
def authCheckingMessage : String :=
  "Authentication check in progress. Please wait a moment."

/-- Error message when no user is signed in. -/
def notSignedInMessage : String :=
  "You must be signed in to perform this action. Please log in and try again."

/-- `validateOperation` from the manager hooks: offline, then auth-checking,
then signed-out are checked in that order. -/
def validateOperation (st : GateState) : Except String Unit :=
  if !st.isOnline then
    .error offlineMessage
  else if st.authChecking then
    .error authCheckingMessage
  else
    match st.user with
    | none => .error notSignedInMessage
    | some _ => .ok ()

/-- A sequence of rate-limit checks for the same operation kind at the given
times (left to right), stopping at the first rejection. -/
def attemptsWithin (limits : Operation → Nat) (op : Operation) :
    List Nat → RateLimitState → Except String RateLimitState
  | [], st => .ok st
  | t :: rest, st =>
    match checkRateLimit limits t op st with
    | .error e => .error e
    | .ok st' => attemptsWithin limits op rest st'

theorem getInfo_setInfo_same (st : RateLimitState) (op : Operation) (info : RateLimitInfo) :
    getInfo (setInfo st op info) op = info := by
  cases op <;> rfl

theorem getInfo_setInfo_other (st : RateLimitState) (op op' : Operation)
    (info : RateLimitInfo) (h : op' ≠ op) :
    getInfo (setInfo st op info) op' = getInfo st op' := by
  cases op <;> cases op' <;> first | rfl | exact absurd rfl h

/-- A passing rate-limit check leaves the counters of the other operation
kinds untouched. -/
theorem checkRateLimit_ok_other (limits : Operation → Nat) (now : Nat)
    (op op' : Operation) (st st' : RateLimitState)
    (h : checkRateLimit limits now op st = .ok st') (hne : op' ≠ op) :
    getInfo st' op' = getInfo st op' := by
  unfold checkRateLimit at h
  split at h
  · cases h
    exact getInfo_setInfo_other st op op' _ hne
  · split at h
    · cases h
    · cases h
      exact getInfo_setInfo_other st op op' _ hne

/-- Within the window (all times below `resetTime`), successful attempts
accumulate into the counter one by one. -/
theorem attemptsWithin_ok (limits : Operation → Nat) (op : Operation)
    (ts : List Nat) (st : RateLimitState)
    (hwin : ∀ t ∈ ts, t < (getInfo st op).resetTime)
    (hroom : (getInfo st op).count + ts.length ≤ limits op) :
    ∃ st', attemptsWithin limits op ts st = .ok st' ∧
      (getInfo st' op).count = (getInfo st op).count + ts.length ∧
      (getInfo st' op).resetTime = (getInfo st op).resetTime ∧
      ∀ op', op' ≠ op → getInfo st' op' = getInfo st op' := by
  induction ts generalizing st with
  | nil =>
    exact ⟨st, rfl, by simp, rfl, fun _ _ => rfl⟩
  | cons t rest ih =>
    have ht : t < (getInfo st op).resetTime := hwin t (List.mem_cons_self t rest)
    have hcount : (getInfo st op).count < limits op := by
      simp only [List.length_cons] at hroom
      omega
    have hstep : checkRateLimit limits t op st =
        .ok (setInfo st op
          { count := (getInfo st op).count + 1,
            resetTime := (getInfo st op).resetTime }) := by
      unfold checkRateLimit
      rw [if_neg (by omega), if_neg (by omega)]
    have h1 : getInfo (setInfo st op
        { count := (getInfo st op).count + 1, resetTime := (getInfo st op).resetTime }) op =
        { count := (getInfo st op).count + 1, resetTime := (getInfo st op).resetTime } :=
      getInfo_setInfo_same st op _
    have h1c : (getInfo (setInfo st op
        { count := (getInfo st op).count + 1, resetTime := (getInfo st op).resetTime }) op).count =
        (getInfo st op).count + 1 := by rw [h1]
    have h1r : (getInfo (setInfo st op
        { count := (getInfo st op).count + 1, resetTime := (getInfo st op).resetTime }) op).resetTime =
        (getInfo st op).resetTime := by rw [h1]
    obtain ⟨st', hrun, hc, hr, hother⟩ := ih (setInfo st op
        { count := (getInfo st op).count + 1, resetTime := (getInfo st op).resetTime })
      (by
        intro u hu
        rw [h1r]
        exact hwin u (List.mem_cons_of_mem t hu))
      (by
        rw [h1c]
        simp only [List.length_cons] at hroom
        omega)
    refine ⟨st', ?_, ?_, ?_, ?_⟩
    · simp only [attemptsWithin, hstep]
      exact hrun
    · rw [hc, h1c]
      simp only [List.length_cons]
      omega
    · rw [hr, h1r]
    · intro op' hne
      rw [hother op' hne, getInfo_setInfo_other st op op' _ hne]

/-- JavaScript `String.prototype.trim`: strip leading and trailing
whitespace (computable model used instead of `String.trim`, which does not
reduce in the kernel). -/
def trim (s : String) : String :=
  ⟨((s.data.dropWhile Char.isWhitespace).reverse.dropWhile Char.isWhitespace).reverse⟩

/-- A remote (Firestore) call issued by a mutation, recorded as an effect. -/
inductive RemoteOp where
  | addDoc (coll : String)
  | updateDoc (coll : String) (id : String)
  | deleteDoc (coll : String) (id : String)
  | getDocs (coll : String)
deriving DecidableEq, Repr

/-- What a mutation function produces: its returned value or thrown error
message, the rate-limit state after the call, and the remote calls issued. -/
structure MutationOutcome (α : Type) where
  result : Except String α
  rlAfter : RateLimitState
  remoteOps : List RemoteOp

/-- `CreateTestimonialData` (`BaseTestimonial`): fields the admin form passes
to `createTestimonial`.  Optional fields are those the function reads with
`?.`/`||` defaults. -/
structure CreateTestimonialData where
  clientName : String
  company : Option String
  project : Option String
  message : String
  rating : Nat
  role : Option String
  image : Option String
  approved : Option Bool
deriving DecidableEq, Repr

/-- The `docData` object `createTestimonial` writes with `addDoc`
(`createdAt: serverTimestamp()` is stamped by the backend). -/
structure TestimonialDoc where
  clientName : String
  company : String
  project : String
  message : String
  rating : Nat
  role : String
  image : String
  approved : Bool
deriving DecidableEq, Repr

/-- The `docData` built by `createTestimonial` from its payload. -/
def testimonialDocData (d : CreateTestimonialData) : TestimonialDoc :=
  { clientName := trim d.clientName
    company := (d.company.map trim).getD ""
    project := (d.project.map trim).getD ""
    message := trim d.message
    rating := d.rating
    role := (d.role.map trim).getD ""
    image := d.image.getD ""
    approved := d.approved.getD false }

/-- `createTestimonial` from the testimonial manager hook: gate, rate limit
(create), then the only field validation — `clientName` must be nonblank —
then the `addDoc` write. -/
def createTestimonial (gate : GateState) (now : Nat) (rl : RateLimitState)
    (d : CreateTestimonialData) : MutationOutcome TestimonialDoc :=
  match validateOperation gate with
  | .error e => ⟨.error e, rl, []⟩
  | .ok _ =>
    match checkRateLimit RATE_LIMITS now .create rl with
    | .error e => ⟨.error e, rl, []⟩
    | .ok rl' =>
      if d.clientName = "" ∨ trim d.clientName = "" then
        ⟨.error "Client Name is required", rl', []⟩
      else
        ⟨.ok (testimonialDocData d), rl', [RemoteOp.addDoc "testimonials"]⟩

/-- `UpdateTestimonialData`: every entity field optional (partial payload). -/
structure UpdateTestimonialData where
  clientName : Option String
  company : Option String
  approved : Option Bool
  createdAt : Option String
  image : Option String
  message : Option String
  project : Option String
  rating : Option Nat
  role : Option String
deriving DecidableEq, Repr

/-- The `updateData` map `updateTestimonial` passes to `updateDoc`: the
audit stamps plus exactly the payload fields that are defined
(`updatedAt: serverTimestamp()` is stamped by the backend). -/
structure TestimonialUpdateMap where
  updatedBy : String
  clientName : Option String
  company : Option String
  approved : Option Bool
  createdAt : Option String
  image : Option String
  message : Option String
  project : Option String
  rating : Option Nat
  role : Option String
deriving DecidableEq, Repr

/-- Builds `updateData` as `updateTestimonial` does: a field is included
iff it is defined in the payload; string fields that the code trims are
trimmed. -/
def buildTestimonialUpdate (uid : String) (d : UpdateTestimonialData) :
    TestimonialUpdateMap :=
  { updatedBy := uid
    clientName := d.clientName.map trim
    company := d.company.map trim
    approved := d.approved
    createdAt := d.createdAt
    image := d.image
    message := d.message.map trim
    project := d.project
    rating := d.rating
    role := d.role }

/-- `updateTestimonial` from the testimonial manager hook: gate, rate limit
(update), id required, then the partial `updateDoc` write. -/
def updateTestimonial (gate : GateState) (now : Nat) (rl : RateLimitState)
    (id : String) (d : UpdateTestimonialData) : MutationOutcome TestimonialUpdateMap :=
  match validateOperation gate with
  | .error e => ⟨.error e, rl, []⟩
  | .ok _ =>
    match checkRateLimit RATE_LIMITS now .update rl with
    | .error e => ⟨.error e, rl, []⟩
    | .ok rl' =>
      if id = "" then
        ⟨.error "Testimonial ID is required", rl', []⟩
      else
        ⟨.ok (buildTestimonialUpdate (gate.user.getD "") d), rl',
          [RemoteOp.updateDoc "testimonials" id]⟩

/-- `deleteTestimonial` from the testimonial manager hook: gate, rate limit
(delete), id required, then `deleteDoc`. -/
def deleteTestimonial (gate : GateState) (now : Nat) (rl : RateLimitState)
    (id : String) : MutationOutcome Unit :=
  match validateOperation gate with
  | .error e => ⟨.error e, rl, []⟩
  | .ok _ =>
    match checkRateLimit RATE_LIMITS now .delete rl with
    | .error e => ⟨.error e, rl, []⟩
    | .ok rl' =>
      if id = "" then
        ⟨.error "Testimonial ID is required", rl', []⟩
      else
        ⟨.ok (), rl', [RemoteOp.deleteDoc "testimonials" id]⟩

/-- A testimonial document as stored remotely, for stating what an
`updateDoc` call changes. -/
structure RemoteTestimonial where
  clientName : String
  company : String
  role : String
  project : String
  message : String
  rating : Nat
  approved : Bool
  image : String
  createdAt : String
  updatedBy : String
  updatedAt : Nat
deriving DecidableEq, Repr

/-- Firestore `updateDoc` semantics for a testimonial update map: fields in
the map overwrite, all other fields keep their stored value; the audit
stamps are always written. -/
def applyTestimonialUpdate (docBefore : RemoteTestimonial)
    (u : TestimonialUpdateMap) (serverNow : Nat) : RemoteTestimonial :=
  { clientName := u.clientName.getD docBefore.clientName
    company := u.company.getD docBefore.company
    role := u.role.getD docBefore.role
    project := u.project.getD docBefore.project
    message := u.message.getD docBefore.message
    rating := u.rating.getD docBefore.rating
    approved := u.approved.getD docBefore.approved
    image := u.image.getD docBefore.image
    createdAt := u.createdAt.getD docBefore.createdAt
    updatedBy := u.updatedBy
    updatedAt := serverNow }

/-- The admin testimonials tab's form state (fields `isFormValid` reads). -/
structure TestimonialFormData where
  clientName : String
  role : String
  company : String
  message : String
deriving DecidableEq, Repr

/-- `isFormValid` from the admin testimonials tab: clientName, role,
company and message truthy (nonempty) and message at least 10 characters. -/
def isFormValid (f : TestimonialFormData) : Bool :=
  f.clientName ≠ "" && f.role ≠ "" && f.company ≠ "" && f.message ≠ "" &&
    10 ≤ f.message.length

/-- `handleCreate` from the admin testimonials tab: returns early (no call
to `createTestimonial`) unless `isFormValid()`. -/
def handleCreate (gate : GateState) (now : Nat) (rl : RateLimitState)
    (f : TestimonialFormData) (d : CreateTestimonialData) :
    Option (MutationOutcome TestimonialDoc) :=
  if !isFormValid f then none
  else some (createTestimonial gate now rl d)

/-- `handleUpdate` from the admin testimonials tab: returns early (no call
to `updateTestimonial`) unless a testimonial is selected and `isFormValid()`. -/
def handleUpdate (gate : GateState) (now : Nat) (rl : RateLimitState)
    (selected : Option String) (f : TestimonialFormData) (d : UpdateTestimonialData) :
    Option (MutationOutcome TestimonialUpdateMap) :=
  match selected with
  | none => none
  | some id =>
    if !isFormValid f then none
    else some (updateTestimonial gate now rl id d)

/-- A skill entry inside an about-me skill category. -/
structure Skill where
  id : String
  name : String
deriving DecidableEq, Repr

/-- A skill category of the about-me document. -/
structure SkillCategory where
  id : String
  title : String
  skills : List Skill
deriving DecidableEq, Repr

/-- `CreateAboutMeData` (`BaseAboutMe`): the payload of `createAboutMe`.
Optional fields are those read with `?.`/`||` defaults. -/
structure CreateAboutMeData where
  name : String
  title : String
  bio : String
  location : Option String
  userImg : Option String
  resume : Option String
  skillCategories : Option (List SkillCategory)
deriving DecidableEq, Repr

/-- The `docData` object `createAboutMe` writes (timestamps stamped by the
backend). -/
structure AboutMeDoc where
  name : String
  title : String
  bio : String
  location : String
  userImg : String
  resume : String
  skillCategories : List SkillCategory
  createdBy : String
deriving DecidableEq, Repr

/-- The "already exists" error of `createAboutMe`. -/
def aboutMeExistsMessage : String :=
  "About me profile already exists. Please update the existing one instead of creating a new one."

/-- `createAboutMe` from the about-me manager hook: gate, rate limit
(create), required-field validation (name, title, bio), then the
single-document existence pre-check (a `getDocs` read), then `addDoc`.
`existingDocs` is the current content of the `aboutMe` collection. -/
def createAboutMe (gate : GateState) (now : Nat) (rl : RateLimitState)
    (existingDocs : List AboutMeDoc) (d : CreateAboutMeData) :
    MutationOutcome AboutMeDoc :=
  match validateOperation gate with
  | .error e => ⟨.error e, rl, []⟩
  | .ok _ =>
    match checkRateLimit RATE_LIMITS now .create rl with
    | .error e => ⟨.error e, rl, []⟩
    | .ok rl' =>
      if d.name = "" ∨ trim d.name = "" then
        ⟨.error "Name is required", rl', []⟩
      else if d.title = "" ∨ trim d.title = "" then
        ⟨.error "Title is required", rl', []⟩
      else if d.bio = "" ∨ trim d.bio = "" then
        ⟨.error "Bio is required", rl', []⟩
      else if ¬ existingDocs.isEmpty then
        ⟨.error aboutMeExistsMessage, rl', [RemoteOp.getDocs "aboutMe"]⟩
      else
        ⟨.ok { name := trim d.name
               title := trim d.title
               bio := trim d.bio
               location := (d.location.map trim).getD ""
               userImg := (d.userImg.map trim).getD ""
               resume := (d.resume.map trim).getD ""
               skillCategories := d.skillCategories.getD []
               createdBy := gate.user.getD "" },
         rl', [RemoteOp.getDocs "aboutMe", RemoteOp.addDoc "aboutMe"]⟩

/-- The `availableHours` sub-object of a contact payload (create form). -/
structure AvailableHoursData where
  weekdays : String
  weekends : String
deriving DecidableEq, Repr

/-- The `hotline` sub-object of a contact payload (create form). -/
structure HotlineData where
  phone : String
  location : String
deriving DecidableEq, Repr

/-- The `socialLinks` sub-object of a contact payload; leaves are read with
`?.` so each is optional. -/
structure SocialLinksData where
  facebook : Option String
  instagram : Option String
  twitter : Option String
  linkedin : Option String
deriving DecidableEq, Repr

/-- `CreateContactData`: the payload of `createContact`; the three
sub-objects are runtime-checked for presence, so each is optional here. -/
structure CreateContactData where
  availableHours : Option AvailableHoursData
  hotline : Option HotlineData
  socialLinks : Option SocialLinksData
deriving DecidableEq, Repr

/-- The `urlFields` list of `validateContactData`: the provided social-link
values with falsy (absent or empty) entries filtered out. -/
def urlFields (sl : Option SocialLinksData) : List String :=
  (match sl with
   | none => ([] : List (Option String))
   | some s => [s.facebook, s.instagram, s.twitter, s.linkedin]).filterMap id
    |>.filter (fun s => s ≠ "")

/-- The URL loop of `validateContactData`: the first nonblank social link
rejected by the URL parser produces an "Invalid URL format" error.
`urlValid` stands for the browser's `new URL` constructor succeeding. -/
def checkUrls (urlValid : String → Bool) (sl : Option SocialLinksData) :
    Except String Unit :=
  match (urlFields sl).find? (fun u => trim u != "" && !urlValid u) with
  | some u => .error ("Invalid URL format: " ++ u)
  | none => .ok ()

/-- `validateContactData(data)` in create mode: the three sub-objects must
be present, then provided URLs must parse. -/
def validateContactCreateData (urlValid : String → Bool) (d : CreateContactData) :
    Except String Unit :=
  match d.availableHours with
  | none => .error "Available hours information is required"
  | some _ =>
    match d.hotline with
    | none => .error "Hotline information is required"
    | some _ =>
      match d.socialLinks with
      | none => .error "Social links information is required"
      | some _ => checkUrls urlValid d.socialLinks

/-- The `socialLinks` sub-object as written by `createContact` (defaults
applied). -/
structure SocialLinksDoc where
  facebook : String
  instagram : String
  twitter : String
  linkedin : String
deriving DecidableEq, Repr

/-- The `docData` object `createContact` writes (timestamps stamped by the
backend). -/
structure ContactDoc where
  availableHours : AvailableHoursData
  hotline : HotlineData
  socialLinks : SocialLinksDoc
  createdBy : String
deriving DecidableEq, Repr

/-- The "already exists" error of `createContact`. -/
def contactExistsMessage : String :=
  "Contact information already exists. Please update the existing one instead of creating a new one."

/-- `createContact` from the contact manager hook: gate, rate limit
(create, contact limits), structure validation, then the single-document
existence pre-check (a `getDocs` read), then `addDoc`. -/
def createContact (urlValid : String → Bool) (gate : GateState) (now : Nat)
    (rl : RateLimitState) (existingDocs : List ContactDoc) (d : CreateContactData) :
    MutationOutcome ContactDoc :=
  match validateOperation gate with
  | .error e => ⟨.error e, rl, []⟩
  | .ok _ =>
    match checkRateLimit CONTACT_RATE_LIMITS now .create rl with
    | .error e => ⟨.error e, rl, []⟩
    | .ok rl' =>
      match validateContactCreateData urlValid d with
      | .error e => ⟨.error e, rl', []⟩
      | .ok _ =>
        if ¬ existingDocs.isEmpty then
          ⟨.error contactExistsMessage, rl', [RemoteOp.getDocs "contact"]⟩
        else
          ⟨.ok { availableHours :=
                   { weekdays := trim (d.availableHours.getD ⟨"", ""⟩).weekdays
                     weekends := trim (d.availableHours.getD ⟨"", ""⟩).weekends }
                 hotline :=
                   { phone := trim (d.hotline.getD ⟨"", ""⟩).phone
                     location := trim (d.hotline.getD ⟨"", ""⟩).location }
                 socialLinks :=
                   { facebook :=
                       (((d.socialLinks.getD ⟨none, none, none, none⟩).facebook).map
                         trim).getD ""
                     instagram :=
                       (((d.socialLinks.getD ⟨none, none, none, none⟩).instagram).map
                         trim).getD ""
                     twitter :=
                       (((d.socialLinks.getD ⟨none, none, none, none⟩).twitter).map
                         trim).getD ""
                     linkedin :=
                       (((d.socialLinks.getD ⟨none, none, none, none⟩).linkedin).map
                         trim).getD "" }
                 createdBy := gate.user.getD "" },
           rl', [RemoteOp.getDocs "contact", RemoteOp.addDoc "contact"]⟩

/-- The `availableHours` part of an update payload: each leaf optional. -/
structure AvailableHoursUpdate where
  weekdays : Option String
  weekends : Option String
deriving DecidableEq, Repr

/-- The `hotline` part of an update payload: each leaf optional. -/
structure HotlineUpdate where
  phone : Option String
  location : Option String
deriving DecidableEq, Repr

/-- `UpdateContactData` (`Partial<ContactData>`): each sub-object optional,
each leaf within checked for `!== undefined` individually. -/
structure UpdateContactData where
  availableHours : Option AvailableHoursUpdate
  hotline : Option HotlineUpdate
  socialLinks : Option SocialLinksData
deriving DecidableEq, Repr

/-- `validateContactData(data, true)`: structure presence is skipped for
updates, only provided URLs are validated. -/
def validateContactUpdateData (urlValid : String → Bool) (d : UpdateContactData) :
    Except String Unit :=
  checkUrls urlValid d.socialLinks

/-- The `updateData` map `updateContact` passes to `updateDoc`: the audit
stamps plus exactly the nested leaf fields present in the payload, each
addressed by its dotted path so sibling leaves are untouched. -/
structure ContactUpdateMap where
  updatedBy : String
  availableHoursWeekdays : Option String
  availableHoursWeekends : Option String
  hotlinePhone : Option String
  hotlineLocation : Option String
  socialLinksFacebook : Option String
  socialLinksInstagram : Option String
  socialLinksTwitter : Option String
  socialLinksLinkedin : Option String
deriving DecidableEq, Repr

/-- Builds `updateData` as `updateContact` does: a dotted leaf is included
iff its sub-object is present and the leaf is defined; values are trimmed. -/
def buildContactUpdate (uid : String) (d : UpdateContactData) : ContactUpdateMap :=
  { updatedBy := uid
    availableHoursWeekdays :=
      (d.availableHours.bind fun ah => ah.weekdays).map trim
    availableHoursWeekends :=
      (d.availableHours.bind fun ah => ah.weekends).map trim
    hotlinePhone := (d.hotline.bind fun h => h.phone).map trim
    hotlineLocation := (d.hotline.bind fun h => h.location).map trim
    socialLinksFacebook := (d.socialLinks.bind fun s => s.facebook).map trim
    socialLinksInstagram := (d.socialLinks.bind fun s => s.instagram).map trim
    socialLinksTwitter := (d.socialLinks.bind fun s => s.twitter).map trim
    socialLinksLinkedin := (d.socialLinks.bind fun s => s.linkedin).map trim }

/-- `updateContact` from the contact manager hook: gate, rate limit
(update, contact limits), id required, URL validation, then the partial
`updateDoc` write of dotted leaf paths. -/
def updateContact (urlValid : String → Bool) (gate : GateState) (now : Nat)
    (rl : RateLimitState) (id : String) (d : UpdateContactData) :
    MutationOutcome ContactUpdateMap :=
  match validateOperation gate with
  | .error e => ⟨.error e, rl, []⟩
  | .ok _ =>
    match checkRateLimit CONTACT_RATE_LIMITS now .update rl with
    | .error e => ⟨.error e, rl, []⟩
    | .ok rl' =>
      if id = "" then
        ⟨.error "Contact ID is required", rl', []⟩
      else
        match validateContactUpdateData urlValid d with
        | .error e => ⟨.error e, rl', []⟩
        | .ok _ =>
          ⟨.ok (buildContactUpdate (gate.user.getD "") d), rl',
            [RemoteOp.updateDoc "contact" id]⟩

/-- A contact document as stored remotely (leaves flattened to their dotted
paths), for stating what an `updateDoc` call changes. -/
structure RemoteContact where
  weekdays : String
  weekends : String
  phone : String
  location : String
  facebook : String
  instagram : String
  twitter : String
  linkedin : String
  updatedBy : String
  updatedAt : Nat
deriving DecidableEq, Repr

/-- Firestore `updateDoc` semantics for a contact update map: dotted leaves
in the map overwrite, all other leaves keep their stored value; the audit
stamps are always written. -/
def applyContactUpdate (docBefore : RemoteContact) (u : ContactUpdateMap)
    (serverNow : Nat) : RemoteContact :=
  { weekdays := u.availableHoursWeekdays.getD docBefore.weekdays
    weekends := u.availableHoursWeekends.getD docBefore.weekends
    phone := u.hotlinePhone.getD docBefore.phone
    location := u.hotlineLocation.getD docBefore.location
    facebook := u.socialLinksFacebook.getD docBefore.facebook
    instagram := u.socialLinksInstagram.getD docBefore.instagram
    twitter := u.socialLinksTwitter.getD docBefore.twitter
    linkedin := u.socialLinksLinkedin.getD docBefore.linkedin
    updatedBy := u.updatedBy
    updatedAt := serverNow }

/-- A testimonial as mirrored in fetcher state (document id plus mapped
fields; `createdAt` as epoch ms after timestamp conversion). -/
structure Testimonial where
  id : String
  clientName : String
  company : String
  role : String
  project : String
  message : String
  rating : Nat
  approved : Bool
  image : String
  createdAt : Nat
deriving DecidableEq, Repr

/-- A raw testimonial document in the remote collection: every field may be
missing (the mapping applies `||` defaults). -/
structure RawTestimonial where
  id : String
  clientName : Option String
  company : Option String
  role : Option String
  project : Option String
  message : Option String
  rating : Option Nat
  approved : Option Bool
  image : Option String
  createdAt : Option Nat
deriving DecidableEq, Repr

/-- The per-document mapping both fetcher queries apply: `||` defaults, and
`createdAt` converted (falling back to the current time when missing). -/
def mapRawTestimonial (now : Nat) (r : RawTestimonial) : Testimonial :=
  { id := r.id
    clientName := r.clientName.getD ""
    company := r.company.getD ""
    role := r.role.getD ""
    project := r.project.getD ""
    message := r.message.getD ""
    rating := r.rating.getD 0
    approved := r.approved.getD false
    image := r.image.getD ""
    createdAt := r.createdAt.getD now }

/-- Insertion step for ordering by `createdAt` descending (missing
timestamps sort as 0). -/
def insertByCreatedAtDesc (x : RawTestimonial) :
    List RawTestimonial → List RawTestimonial
  | [] => [x]
  | y :: ys =>
    if y.createdAt.getD 0 ≤ x.createdAt.getD 0 then x :: y :: ys
    else y :: insertByCreatedAtDesc x ys

/-- `orderBy('createdAt', 'desc')` applied to a collection snapshot. -/
def orderByCreatedAtDesc (l : List RawTestimonial) : List RawTestimonial :=
  l.foldr insertByCreatedAtDesc []

/-- The query run by the fetcher's initial load (`initializeTestimonials`):
the `where('approved', '==', true)` filter and the ordering are commented
out in the source, so the whole collection is returned as-is. -/
def publicInitialQueryDocs (store : List RawTestimonial) : List RawTestimonial :=
  store

/-- The query run by the fetcher's manual refresh (`refreshTestimonials`):
only documents with `approved == true`, newest first. -/
def publicRefreshQueryDocs (store : List RawTestimonial) : List RawTestimonial :=
  orderByCreatedAtDesc (store.filter (fun r => r.approved = some true))

/-- The query run by the admin manager's live listener: all documents,
newest first (the admin view sees unapproved testimonials too). -/
def adminQueryDocs (store : List RawTestimonial) : List RawTestimonial :=
  orderByCreatedAtDesc store

/-- The localStorage cache blob of the testimonials fetcher:
`{data, timestamp}`. -/
structure TCache where
  data : List Testimonial
  timestamp : Nat
deriving DecidableEq, Repr

/-- `CACHE_DURATION = 10 * 60 * 1000` (10 minutes). -/
def CACHE_DURATION : Nat := 10 * 60 * 1000

/-- `loadFromCache`: returns the cached list if the entry exists and its
age is within `CACHE_DURATION`; an older entry is removed from storage and
treated as absent.  Also returns the cache entry state after the call. -/
def loadFromCache (cache : Option TCache) (now : Nat) :
    Option (List Testimonial) × Option TCache :=
  match cache with
  | none => (none, none)
  | some c =>
    if CACHE_DURATION < now - c.timestamp then (none, none)
    else (some c.data, some c)

/-- The fetcher's state: the in-memory mirror, the loading flag and the
non-fatal error notice. -/
structure FetcherState where
  testimonials : List Testimonial
  loading : Bool
  error : Option String
deriving DecidableEq, Repr

/-- The non-fatal notice shown when a fetch error falls back to the cache. -/
def usingCachedDataMessage : String := "Using cached data due to fetch error"

/-- The `catch` handler shared by `initializeTestimonials` and
`refreshTestimonials`: re-read the cache through `loadFromCache`; if an
entry survives the freshness check, fall back to it with the non-fatal
notice, otherwise surface the fetch error with an empty list. -/
def handleFetchError (cache : Option TCache) (now : Nat) (errMsg : String) :
    FetcherState × Option TCache :=
  match loadFromCache cache now with
  | (some cached, cache') =>
    ({ testimonials := cached, loading := false, error := some usingCachedDataMessage },
      cache')
  | (none, cache') =>
    ({ testimonials := [], loading := false, error := some errMsg }, cache')

/-- The outcome of a fetcher flow: the resulting state, the cache entry
afterwards, and whether the network path (`getDocs`) ran. -/
structure FetchOutcome where
  state : FetcherState
  cacheAfter : Option TCache
  fetched : Bool
deriving DecidableEq, Repr

/-- `initializeTestimonials` (the public fetcher's mount flow): serve a
fresh cache without fetching; otherwise run the initial-load query (whose
approved filter is commented out), save the result to the cache, and on
fetch failure degrade via the catch handler.  `fetchResult` is the
backend's response to `getDocs`. -/
def initializeTestimonials (cache : Option TCache) (now : Nat)
    (fetchResult : Except String (List RawTestimonial)) : FetchOutcome :=
  match loadFromCache cache now with
  | (some cached, cache') =>
    ⟨{ testimonials := cached, loading := false, error := none }, cache', false⟩
  | (none, cache') =>
    match fetchResult with
    | .ok docs =>
      ⟨{ testimonials := (publicInitialQueryDocs docs).map (mapRawTestimonial now),
          loading := false, error := none },
        some { data := (publicInitialQueryDocs docs).map (mapRawTestimonial now),
               timestamp := now },
        true⟩
    | .error e =>
      let (st, cacheAfter) := handleFetchError cache' now e
      ⟨st, cacheAfter, true⟩

/-- `refreshTestimonials` (the manual refresh): clear the cache, run the
approved-only query, save and mirror the result; on fetch failure degrade
via the catch handler (over the already-cleared cache). -/
def refreshTestimonials (now : Nat)
    (fetchResult : Except String (List RawTestimonial)) : FetchOutcome :=
  match fetchResult with
  | .ok docs =>
    ⟨{ testimonials := (publicRefreshQueryDocs docs).map (mapRawTestimonial now),
        loading := false, error := none },
      some { data := (publicRefreshQueryDocs docs).map (mapRawTestimonial now),
             timestamp := now },
      true⟩
  | .error e =>
    let (st, cacheAfter) := handleFetchError none now e
    ⟨st, cacheAfter, true⟩

/-- A gate state that passes `validateOperation`: online, auth check done,
signed in. -/
def goodGate : GateState := ⟨true, false, some "admin-uid"⟩

/-- A gate state with connectivity down. -/
def offlineGate : GateState := ⟨false, true, none⟩

/-- A gate state online but with the auth observer not yet fired. -/
def checkingGate : GateState := ⟨true, true, none⟩

/-- A gate state online, auth check done, but signed out. -/
def signedOutGate : GateState := ⟨true, false, none⟩

/-- A fresh rate-limit state as initialized at mount time 0: all counters 0,
all windows ending at 60000. -/
def rlFresh : RateLimitState := ⟨⟨0, 60000⟩, ⟨0, 60000⟩, ⟨0, 60000⟩⟩

/-- C3: on each attempted mutation the rate-limit step behaves exactly as
specified — at or past `resetTime` the counter resets to 0 with a fresh
`now + 60000` window and the call proceeds; otherwise a count at the limit
is rejected with the remaining wait in seconds
(`Math.ceil((resetTime - now)/1000)`); otherwise the counter increments and
the call proceeds.  The limits are create=5, update=10 (15 for the contact
manager), delete=3, and the mutation functions route through this step (the
error of a failing check is the mutation's error). -/
theorem c3_checkRateLimit_spec :
    (∀ (limits : Operation → Nat) (now : Nat) (op : Operation) (st : RateLimitState),
      ((getInfo st op).resetTime ≤ now →
        checkRateLimit limits now op st = .ok (setInfo st op ⟨0, now + 60000⟩)) ∧
      (now < (getInfo st op).resetTime → limits op ≤ (getInfo st op).count →
        checkRateLimit limits now op st =
          .error (rateLimitMessage op (((getInfo st op).resetTime - now + 999) / 1000))) ∧
      (now < (getInfo st op).resetTime → (getInfo st op).count < limits op →
        checkRateLimit limits now op st =
          .ok (setInfo st op ⟨(getInfo st op).count + 1, (getInfo st op).resetTime⟩))) ∧
    RATE_LIMITS .create = 5 ∧ RATE_LIMITS .update = 10 ∧ RATE_LIMITS .delete = 3 ∧
    CONTACT_RATE_LIMITS .create = 5 ∧ CONTACT_RATE_LIMITS .update = 15 ∧
    CONTACT_RATE_LIMITS .delete = 3 ∧
    (∀ gate now rl d e, validateOperation gate = .ok () →
      checkRateLimit RATE_LIMITS now .create rl = .error e →
      createTestimonial gate now rl d = ⟨.error e, rl, []⟩) ∧
    (∀ urlValid gate now rl id d e, validateOperation gate = .ok () →
      checkRateLimit CONTACT_RATE_LIMITS now .update rl = .error e →
      updateContact urlValid gate now rl id d = ⟨.error e, rl, []⟩) := by
  refine ⟨?_, rfl, rfl, rfl, rfl, rfl, rfl, ?_, ?_⟩
  · intro limits now op st
    refine ⟨?_, ?_, ?_⟩
    · intro h
      unfold checkRateLimit
      rw [if_pos h]
    · intro h1 h2
      unfold checkRateLimit
      rw [if_neg (by omega), if_pos h2]
    · intro h1 h2
      unfold checkRateLimit
      rw [if_neg (by omega), if_neg (by omega)]
  · intro gate now rl d e hv hc
    unfold createTestimonial
    rw [hv, hc]
  · intro urlValid gate now rl id d e hv hc
    unfold updateContact
    rw [hv, hc]

/-- A rate-limit state with the create counter at its limit (5) inside a
window ending at 61000. -/
def rlCreateAtLimit : RateLimitState := ⟨⟨5, 61000⟩, ⟨0, 61000⟩, ⟨0, 61000⟩⟩

/-- Witness for C3: at time 1000, with the create counter at 5 in a window
ending at 61000, the check rejects with a 60-second wait. -/
theorem c3_checkRateLimit_spec_witness :
    checkRateLimit RATE_LIMITS 1000 Operation.create rlCreateAtLimit =
      .error (rateLimitMessage Operation.create 60) :=
  (c3_checkRateLimit_spec.1 RATE_LIMITS 1000 Operation.create rlCreateAtLimit).2.1
    (by decide) (by decide)

/-- C4: for every operation kind with limit N, starting anywhere inside a
single window (counter 0, all attempt times before `resetTime`), the N
first attempts pass and the (N+1)th is rejected with the wait-time message;
and once the window elapses (`now ≥ resetTime`), the counter is reset to
zero. -/
theorem c4_quota_exhaustion_and_reset :
    (∀ (limits : Operation → Nat) (op : Operation) (st : RateLimitState)
        (ts : List Nat) (tLast : Nat),
      (getInfo st op).count = 0 →
      ts.length = limits op →
      (∀ t ∈ ts, t < (getInfo st op).resetTime) →
      tLast < (getInfo st op).resetTime →
      ∃ st', attemptsWithin limits op ts st = .ok st' ∧
        (getInfo st' op).count = limits op ∧
        checkRateLimit limits tLast op st' =
          .error (rateLimitMessage op
            (((getInfo st op).resetTime - tLast + 999) / 1000))) ∧
    (∀ (limits : Operation → Nat) (op : Operation) (st : RateLimitState) (now : Nat),
      (getInfo st op).resetTime ≤ now →
      ∃ st', checkRateLimit limits now op st = .ok st' ∧
        (getInfo st' op).count = 0 ∧
        (getInfo st' op).resetTime = now + 60000) := by
  constructor
  · intro limits op st ts tLast hc0 hlen hwin hlast
    obtain ⟨st', hrun, hcount, hreset, _⟩ :=
      attemptsWithin_ok limits op ts st hwin (by omega)
    refine ⟨st', hrun, by omega, ?_⟩
    unfold checkRateLimit
    rw [if_neg (by omega), if_pos (by omega), hreset]
  · intro limits op st now h
    refine ⟨setInfo st op ⟨0, now + 60000⟩, ?_, ?_, ?_⟩
    · unfold checkRateLimit
      rw [if_pos h]
    · rw [getInfo_setInfo_same]
    · rw [getInfo_setInfo_same]

/-- Witness for C4: with the fresh state, three delete attempts at times
1, 2, 3 exhaust the delete quota (limit 3) and a fourth at time 4 is
rejected; and at time 60000 the window has elapsed and the counter resets. -/
theorem c4_quota_exhaustion_and_reset_witness :
    (∃ st', attemptsWithin RATE_LIMITS Operation.delete [1, 2, 3] rlFresh = .ok st' ∧
      (getInfo st' Operation.delete).count = RATE_LIMITS Operation.delete ∧
      checkRateLimit RATE_LIMITS 4 Operation.delete st' =
        .error (rateLimitMessage Operation.delete 60)) ∧
    (∃ st', checkRateLimit RATE_LIMITS 60000 Operation.delete rlFresh = .ok st' ∧
      (getInfo st' Operation.delete).count = 0 ∧
      (getInfo st' Operation.delete).resetTime = 120000) := by
  constructor
  · have h := c4_quota_exhaustion_and_reset.1 RATE_LIMITS Operation.delete rlFresh
      [1, 2, 3] 4 (by decide) (by decide) (by decide) (by decide)
    exact h
  · exact c4_quota_exhaustion_and_reset.2 RATE_LIMITS Operation.delete rlFresh 60000
      (by decide)

/-- C6: an offline mutation attempt fails immediately with the connectivity
error and issues no remote call and leaves the rate-limit state untouched;
online but with the auth observer not yet fired, it fails with the distinct
"authentication check in progress" message (not the "not signed in" one);
online with auth check done but signed out, with the "signed in" message;
the three gate messages are pairwise distinct; and every modelled mutation
function short-circuits on a gate failure with that error, no remote
operations, and an unchanged rate-limit state. -/
theorem c6_gate_spec :
    (∀ gate : GateState, gate.isOnline = false →
      validateOperation gate = .error offlineMessage) ∧
    (∀ gate : GateState, gate.isOnline = true → gate.authChecking = true →
      validateOperation gate = .error authCheckingMessage) ∧
    (∀ gate : GateState, gate.isOnline = true → gate.authChecking = false →
      gate.user = none → validateOperation gate = .error notSignedInMessage) ∧
    offlineMessage ≠ authCheckingMessage ∧
    offlineMessage ≠ notSignedInMessage ∧
    authCheckingMessage ≠ notSignedInMessage ∧
    (∀ gate now rl d id du e, validateOperation gate = .error e →
      createTestimonial gate now rl d = ⟨.error e, rl, []⟩ ∧
      updateTestimonial gate now rl id du = ⟨.error e, rl, []⟩ ∧
      deleteTestimonial gate now rl id = ⟨.error e, rl, []⟩) ∧
    (∀ urlValid gate now rl aDocs cDocs ad cd id ud e, validateOperation gate = .error e →
      createAboutMe gate now rl aDocs ad = ⟨.error e, rl, []⟩ ∧
      createContact urlValid gate now rl cDocs cd = ⟨.error e, rl, []⟩ ∧
      updateContact urlValid gate now rl id ud = ⟨.error e, rl, []⟩) := by
  refine ⟨?_, ?_, ?_, by decide, by decide, by decide, ?_, ?_⟩
  · intro gate h
    unfold validateOperation
    rw [h]
    rfl
  · intro gate h1 h2
    unfold validateOperation
    rw [h1, h2]
    rfl
  · intro gate h1 h2 h3
    unfold validateOperation
    rw [h1, h2, h3]
    rfl
  · intro gate now rl d id du e hv
    refine ⟨?_, ?_, ?_⟩
    · unfold createTestimonial
      rw [hv]
    · unfold updateTestimonial
      rw [hv]
    · unfold deleteTestimonial
      rw [hv]
  · intro urlValid gate now rl aDocs cDocs ad cd id ud e hv
    refine ⟨?_, ?_, ?_⟩
    · unfold createAboutMe
      rw [hv]
    · unfold createContact
      rw [hv]
    · unfold updateContact
      rw [hv]

/-- A create payload whose message has fewer than 10 characters. -/
def shortMessageCreate : CreateTestimonialData :=
  ⟨"Ana Client", some "Acme", some "Site", "short", 4, some "CTO", none, some true⟩

/-- Witness for C6: at the concrete offline gate state, the connectivity
error is raised and a create attempt performs no remote call. -/
theorem c6_gate_spec_witness :
    validateOperation offlineGate = .error offlineMessage ∧
    validateOperation checkingGate = .error authCheckingMessage ∧
    validateOperation signedOutGate = .error notSignedInMessage ∧
    createTestimonial offlineGate 0 rlFresh shortMessageCreate =
      ⟨.error offlineMessage, rlFresh, []⟩ := by
  have h1 := c6_gate_spec.1 offlineGate rfl
  have h2 := c6_gate_spec.2.1 checkingGate rfl rfl
  have h3 := c6_gate_spec.2.2.1 signedOutGate rfl rfl rfl
  have h4 := (c6_gate_spec.2.2.2.2.2.2.1 offlineGate 0 rlFresh shortMessageCreate ""
    ⟨none, none, none, none, none, none, none, none, none⟩ offlineMessage h1).1
  exact ⟨h1, h2, h3, h4⟩

/-- C7: on mount, a cached snapshot younger than 10 minutes is served as the
result with no fetch and the entry kept; one older than 10 minutes is
removed by `loadFromCache` (treated as absent) and the live fetch runs. -/
theorem c7_cache_freshness (c : TCache) (now : Nat)
    (fetchResult : Except String (List RawTestimonial)) :
    (now - c.timestamp < CACHE_DURATION →
      initializeTestimonials (some c) now fetchResult =
        ⟨{ testimonials := c.data, loading := false, error := none }, some c, false⟩) ∧
    (CACHE_DURATION < now - c.timestamp →
      loadFromCache (some c) now = (none, none) ∧
      (initializeTestimonials (some c) now fetchResult).fetched = true) := by
  constructor
  · intro h
    have hl : loadFromCache (some c) now = (some c.data, some c) := by
      unfold loadFromCache
      dsimp only
      rw [if_neg (by omega)]
    unfold initializeTestimonials
    rw [hl]
  · intro h
    have hl : loadFromCache (some c) now = (none, none) := by
      unfold loadFromCache
      dsimp only
      rw [if_pos h]
    refine ⟨hl, ?_⟩
    unfold initializeTestimonials
    rw [hl]
    cases fetchResult with
    | ok docs => rfl
    | error e => rfl

/-- A cache entry written at time 0 holding one testimonial. -/
def cachedEntry : TCache :=
  ⟨[⟨"t9", "Cached Client", "", "", "", "cached message", 5, true, "", 0⟩], 0⟩

/-- Witness for C7: at age 1000 ms the entry is served without fetching; at
age 20 minutes it is removed and the fetch runs. -/
theorem c7_cache_freshness_witness :
    initializeTestimonials (some cachedEntry) 1000 (.ok []) =
      ⟨{ testimonials := cachedEntry.data, loading := false, error := none },
        some cachedEntry, false⟩ ∧
    loadFromCache (some cachedEntry) 1200000 = (none, none) ∧
    (initializeTestimonials (some cachedEntry) 1200000 (.ok [])).fetched = true := by
  refine ⟨(c7_cache_freshness cachedEntry 1000 (.ok [])).1 (by decide), ?_, ?_⟩
  · exact ((c7_cache_freshness cachedEntry 1200000 (.ok [])).2 (by decide)).1
  · exact ((c7_cache_freshness cachedEntry 1200000 (.ok [])).2 (by decide)).2

/-- A remote testimonial document with `approved == false`. -/
def rawUnapproved : RawTestimonial :=
  ⟨"t1", some "Ana Client", some "Acme", some "CTO", some "Site",
    some "Honest but unapproved feedback", some 2, some false, none, some 1000⟩

/-- C1 (code bug): the public fetcher's initial load delivers an
`approved == false` document to the in-memory mirror, because the
`where('approved', '==', true)` filter of `initializeTestimonials` is
commented out — contradicting both the claim and the code's own comment
"Fetch only approved testimonials from Firestore".  The manual refresh
does filter it out. -/
theorem c1_initial_load_includes_unapproved :
    (initializeTestimonials none 0 (.ok [rawUnapproved])).state.testimonials =
      [mapRawTestimonial 0 rawUnapproved] ∧
    (mapRawTestimonial 0 rawUnapproved).approved = false ∧
    (refreshTestimonials 0 (.ok [rawUnapproved])).state.testimonials = [] :=
  ⟨rfl, rfl, rfl⟩

/-- C2 counterexample: with the gate passing and quota available, a create
payload whose message is "short" (5 characters) is not rejected —
`createTestimonial` returns the written document and issues the `addDoc`
remote write; likewise `updateTestimonial` with `message: "short"` issues
the `updateDoc` write. -/
theorem c2_counterexample :
    shortMessageCreate.message.length < 10 ∧
    (createTestimonial goodGate 0 rlFresh shortMessageCreate).result =
      .ok (testimonialDocData shortMessageCreate) ∧
    (createTestimonial goodGate 0 rlFresh shortMessageCreate).remoteOps =
      [RemoteOp.addDoc "testimonials"] ∧
    (updateTestimonial goodGate 0 rlFresh "t1"
        ⟨none, none, none, none, none, some "short", none, none, none⟩).remoteOps =
      [RemoteOp.updateDoc "testimonials" "t1"] := by
  refine ⟨by decide, ?_, ?_, ?_⟩ <;> rfl

/-- C2 amended: the ≥10-character message rule is enforced by the admin
form, not by the mutation functions — `isFormValid` is false for a short
message, so `handleCreate`/`handleUpdate` return without calling
`createTestimonial`/`updateTestimonial`; `createTestimonial` itself checks
only `clientName` and, when the gate and quota pass and `clientName` is
nonblank, performs the remote write whatever the message length. -/
theorem c2_amended_form_enforces_message_length :
    (∀ (f : TestimonialFormData) gate now rl sel d du,
      f.message.length < 10 →
      isFormValid f = false ∧
      handleCreate gate now rl f d = none ∧
      handleUpdate gate now rl sel f du = none) ∧
    (∀ gate now rl rl' (d : CreateTestimonialData),
      validateOperation gate = .ok () →
      checkRateLimit RATE_LIMITS now .create rl = .ok rl' →
      trim d.clientName ≠ "" →
      createTestimonial gate now rl d =
        ⟨.ok (testimonialDocData d), rl', [RemoteOp.addDoc "testimonials"]⟩) := by
  constructor
  · intro f gate now rl sel d du hshort
    have hv : isFormValid f = false := by
      unfold isFormValid
      simp only [Bool.and_eq_false_iff]
      right
      simpa using hshort
    refine ⟨hv, ?_, ?_⟩
    · unfold handleCreate
      rw [hv]
      rfl
    · unfold handleUpdate
      cases sel with
      | none => rfl
      | some id =>
        rw [hv]
        rfl
  · intro gate now rl rl' d hv hc hname
    have hne : ¬ (d.clientName = "" ∨ trim d.clientName = "") := by
      rintro (h | h)
      · exact hname (by rw [h]; rfl)
      · exact hname h
    unfold createTestimonial
    rw [hv, hc]
    dsimp only
    rw [if_neg hne]

/-- Witness for C2's amended claim: the concrete short-message form is
invalid and `handleCreate` performs no call, while a direct
`createTestimonial` call with the same short message succeeds. -/
theorem c2_amended_witness :
    isFormValid ⟨"Ana Client", "CTO", "Acme", "short"⟩ = false ∧
    handleCreate goodGate 0 rlFresh ⟨"Ana Client", "CTO", "Acme", "short"⟩
      shortMessageCreate = none ∧
    createTestimonial goodGate 0 rlFresh shortMessageCreate =
      ⟨.ok (testimonialDocData shortMessageCreate),
        ⟨⟨1, 60000⟩, ⟨0, 60000⟩, ⟨0, 60000⟩⟩, [RemoteOp.addDoc "testimonials"]⟩ := by
  have h1 := (c2_amended_form_enforces_message_length.1
    ⟨"Ana Client", "CTO", "Acme", "short"⟩ goodGate 0 rlFresh none shortMessageCreate
    ⟨none, none, none, none, none, none, none, none, none⟩ (by decide))
  have h2 := c2_amended_form_enforces_message_length.2 goodGate 0 rlFresh
    ⟨⟨1, 60000⟩, ⟨0, 60000⟩, ⟨0, 60000⟩⟩ shortMessageCreate rfl rfl (by decide)
  exact ⟨h1.1, h1.2.1, h2⟩

/-- An about-me document already present in the collection. -/
def existingAboutMeDoc : AboutMeDoc :=
  ⟨"Old Name", "Dev", "old bio", "", "", "", [], "admin-uid"⟩

/-- A contact document already present in the collection. -/
def existingContactDoc : ContactDoc :=
  ⟨⟨"9-5", "closed"⟩, ⟨"123", "HQ"⟩, ⟨"", "", "", ""⟩, "admin-uid"⟩

/-- C5 counterexample: with a document already present, a create call with
an invalid payload fails with the field-validation error, not the
"already exists" error — field validation runs before the existence
pre-check in both `createAboutMe` (empty name) and `createContact`
(missing availableHours). -/
theorem c5_counterexample :
    (createAboutMe goodGate 0 rlFresh [existingAboutMeDoc]
        ⟨"", "Title", "Bio text", none, none, none, none⟩).result =
      .error "Name is required" ∧
    "Name is required" ≠ aboutMeExistsMessage ∧
    (createContact (fun _ => true) goodGate 0 rlFresh [existingContactDoc]
        ⟨none, none, none⟩).result =
      .error "Available hours information is required" ∧
    "Available hours information is required" ≠ contactExistsMessage :=
  ⟨rfl, by decide, rfl, by decide⟩

/-- C5 amended: a create call on a singleton entity fails with the
"already exists" error whenever a document is already present AND the
payload passes field validation; an invalid payload fails with its
validation error first, because validation precedes the existence
pre-check. -/
theorem c5_amended_exists_check_after_validation :
    (∀ gate now rl rl' (docs : List AboutMeDoc) (d : CreateAboutMeData),
      validateOperation gate = .ok () →
      checkRateLimit RATE_LIMITS now .create rl = .ok rl' →
      trim d.name ≠ "" → trim d.title ≠ "" → trim d.bio ≠ "" →
      docs ≠ [] →
      createAboutMe gate now rl docs d =
        ⟨.error aboutMeExistsMessage, rl', [RemoteOp.getDocs "aboutMe"]⟩) ∧
    (∀ urlValid gate now rl rl' (docs : List ContactDoc) (d : CreateContactData),
      validateOperation gate = .ok () →
      checkRateLimit CONTACT_RATE_LIMITS now .create rl = .ok rl' →
      validateContactCreateData urlValid d = .ok () →
      docs ≠ [] →
      createContact urlValid gate now rl docs d =
        ⟨.error contactExistsMessage, rl', [RemoteOp.getDocs "contact"]⟩) := by
  constructor
  · intro gate now rl rl' docs d hv hc hn ht hb hdocs
    have hne : ∀ s : String, trim s ≠ "" → ¬ (s = "" ∨ trim s = "") := by
      rintro s hs (h | h)
      · exact hs (by rw [h]; rfl)
      · exact hs h
    have hemp : ¬ (docs.isEmpty = true) := by
      cases docs with
      | nil => exact absurd rfl hdocs
      | cons x xs => simp [List.isEmpty]
    unfold createAboutMe
    rw [hv, hc]
    dsimp only
    rw [if_neg (hne _ hn), if_neg (hne _ ht), if_neg (hne _ hb), if_pos hemp]
  · intro urlValid gate now rl rl' docs d hv hc hval hdocs
    have hemp : ¬ (docs.isEmpty = true) := by
      cases docs with
      | nil => exact absurd rfl hdocs
      | cons x xs => simp [List.isEmpty]
    unfold createContact
    rw [hv, hc]
    dsimp only
    rw [hval]
    dsimp only
    rw [if_pos hemp]

/-- A valid about-me create payload. -/
def validAboutMePayload : CreateAboutMeData :=
  ⟨"Ann Author", "Developer", "A short bio", none, none, none, none⟩

/-- A valid contact create payload (all social links absent, so the URL
loop checks nothing). -/
def validContactPayload : CreateContactData :=
  ⟨some ⟨"9-5", "closed"⟩, some ⟨"123", "HQ"⟩, some ⟨none, none, none, none⟩⟩

/-- Witness for C5's amended claim at concrete valid payloads and
non-empty collections. -/
theorem c5_amended_witness :
    createAboutMe goodGate 0 rlFresh [existingAboutMeDoc] validAboutMePayload =
      ⟨.error aboutMeExistsMessage, ⟨⟨1, 60000⟩, ⟨0, 60000⟩, ⟨0, 60000⟩⟩,
        [RemoteOp.getDocs "aboutMe"]⟩ ∧
    createContact (fun _ => true) goodGate 0 rlFresh [existingContactDoc]
        validContactPayload =
      ⟨.error contactExistsMessage, ⟨⟨1, 60000⟩, ⟨0, 60000⟩, ⟨0, 60000⟩⟩,
        [RemoteOp.getDocs "contact"]⟩ := by
  constructor
  · exact c5_amended_exists_check_after_validation.1 goodGate 0 rlFresh
      ⟨⟨1, 60000⟩, ⟨0, 60000⟩, ⟨0, 60000⟩⟩ [existingAboutMeDoc] validAboutMePayload
      rfl rfl (by decide) (by decide) (by decide) (by simp)
  · exact c5_amended_exists_check_after_validation.2 (fun _ => true) goodGate 0 rlFresh
      ⟨⟨1, 60000⟩, ⟨0, 60000⟩, ⟨0, 60000⟩⟩ [existingContactDoc] validContactPayload
      rfl rfl rfl (by simp)

/-- C8 counterexample: a stale cache entry (age 20 minutes) is NOT used
when the live fetch fails — the initial-load flow surfaces the raw fetch
error with an empty list, because `loadFromCache` removes entries older
than the freshness window before the catch handler can fall back to them. -/
theorem c8_counterexample :
    initializeTestimonials (some cachedEntry) 1200000 (.error "Network unreachable") =
      ⟨{ testimonials := [], loading := false, error := some "Network unreachable" },
        none, true⟩ ∧
    some "Network unreachable" ≠ some usingCachedDataMessage :=
  ⟨rfl, by decide⟩

/-- C8 amended: when the live fetch fails, the catch handler consults
`loadFromCache`, which only yields entries within the 10-minute freshness
window: a fresh entry at that point is served with the non-fatal notice,
while a stale or absent entry yields the fetch error with an empty result
set.  In the mount and refresh flows as written, a stale entry has already
been removed (and refresh clears the cache unconditionally), so those
flows surface the error state; the read path never throws (it is a total
state transformation). -/
theorem c8_amended_fallback_requires_fresh_cache :
    (∀ (c : TCache) (now : Nat) (e : String),
      now - c.timestamp ≤ CACHE_DURATION →
      handleFetchError (some c) now e =
        ({ testimonials := c.data, loading := false,
           error := some usingCachedDataMessage }, some c)) ∧
    (∀ (c : TCache) (now : Nat) (e : String),
      CACHE_DURATION < now - c.timestamp →
      handleFetchError (some c) now e =
        ({ testimonials := [], loading := false, error := some e }, none)) ∧
    (∀ (now : Nat) (e : String),
      handleFetchError none now e =
        ({ testimonials := [], loading := false, error := some e }, none)) ∧
    (∀ (now : Nat) (e : String),
      refreshTestimonials now (.error e) =
        ⟨{ testimonials := [], loading := false, error := some e }, none, true⟩) ∧
    (∀ (c : TCache) (now : Nat) (e : String),
      CACHE_DURATION < now - c.timestamp →
      initializeTestimonials (some c) now (.error e) =
        ⟨{ testimonials := [], loading := false, error := some e }, none, true⟩) ∧
    (∀ (now : Nat) (e : String),
      initializeTestimonials none now (.error e) =
        ⟨{ testimonials := [], loading := false, error := some e }, none, true⟩) := by
  have hfresh : ∀ (c : TCache) (now : Nat), now - c.timestamp ≤ CACHE_DURATION →
      loadFromCache (some c) now = (some c.data, some c) := by
    intro c now h
    unfold loadFromCache
    dsimp only
    rw [if_neg (by omega)]
  have hstale : ∀ (c : TCache) (now : Nat), CACHE_DURATION < now - c.timestamp →
      loadFromCache (some c) now = (none, none) := by
    intro c now h
    unfold loadFromCache
    dsimp only
    rw [if_pos h]
  refine ⟨?_, ?_, ?_, ?_, ?_, ?_⟩
  · intro c now e h
    unfold handleFetchError
    rw [hfresh c now h]
  · intro c now e h
    unfold handleFetchError
    rw [hstale c now h]
  · intro now e
    rfl
  · intro now e
    rfl
  · intro c now e h
    unfold initializeTestimonials
    rw [hstale c now h]
    rfl
  · intro now e
    rfl

/-- Witness for C8's amended claim: a fresh entry (age 1 second) present
at catch time is served with the notice; the same entry at age 20 minutes
yields the error state. -/
theorem c8_amended_witness :
    handleFetchError (some cachedEntry) 1000 "boom" =
      ({ testimonials := cachedEntry.data, loading := false,
         error := some usingCachedDataMessage }, some cachedEntry) ∧
    handleFetchError (some cachedEntry) 1200000 "boom" =
      ({ testimonials := [], loading := false, error := some "boom" }, none) :=
  ⟨c8_amended_fallback_requires_fresh_cache.1 cachedEntry 1000 "boom" (by decide),
   c8_amended_fallback_requires_fresh_cache.2.1 cachedEntry 1200000 "boom" (by decide)⟩

/-- C9: the written update map contains exactly the fields present in the
payload (plus the updatedBy stamp; updatedAt is stamped by the backend), so
applying it to the remote document leaves every unset field unchanged —
for the testimonial update and for every dotted contact leaf. -/
theorem c9_partial_update_frame :
    (∀ (uid : String) (d : UpdateTestimonialData) (doc : RemoteTestimonial) (n : Nat),
      (d.message = none →
        (applyTestimonialUpdate doc (buildTestimonialUpdate uid d) n).message =
          doc.message) ∧
      (d.clientName = none →
        (applyTestimonialUpdate doc (buildTestimonialUpdate uid d) n).clientName =
          doc.clientName) ∧
      (d.company = none →
        (applyTestimonialUpdate doc (buildTestimonialUpdate uid d) n).company =
          doc.company) ∧
      (d.approved = none →
        (applyTestimonialUpdate doc (buildTestimonialUpdate uid d) n).approved =
          doc.approved) ∧
      (d.createdAt = none →
        (applyTestimonialUpdate doc (buildTestimonialUpdate uid d) n).createdAt =
          doc.createdAt) ∧
      (d.image = none →
        (applyTestimonialUpdate doc (buildTestimonialUpdate uid d) n).image =
          doc.image) ∧
      (d.project = none →
        (applyTestimonialUpdate doc (buildTestimonialUpdate uid d) n).project =
          doc.project) ∧
      (d.rating = none →
        (applyTestimonialUpdate doc (buildTestimonialUpdate uid d) n).rating =
          doc.rating) ∧
      (d.role = none →
        (applyTestimonialUpdate doc (buildTestimonialUpdate uid d) n).role =
          doc.role) ∧
      (buildTestimonialUpdate uid d).updatedBy = uid ∧
      (buildTestimonialUpdate uid d).clientName = d.clientName.map trim ∧
      (buildTestimonialUpdate uid d).company = d.company.map trim ∧
      (buildTestimonialUpdate uid d).approved = d.approved ∧
      (buildTestimonialUpdate uid d).createdAt = d.createdAt ∧
      (buildTestimonialUpdate uid d).image = d.image ∧
      (buildTestimonialUpdate uid d).message = d.message.map trim ∧
      (buildTestimonialUpdate uid d).project = d.project ∧
      (buildTestimonialUpdate uid d).rating = d.rating ∧
      (buildTestimonialUpdate uid d).role = d.role) ∧
    (∀ (uid : String) (d : UpdateContactData) (doc : RemoteContact) (n : Nat),
      ((d.availableHours.bind fun ah => ah.weekdays) = none →
        (applyContactUpdate doc (buildContactUpdate uid d) n).weekdays =
          doc.weekdays) ∧
      ((d.availableHours.bind fun ah => ah.weekends) = none →
        (applyContactUpdate doc (buildContactUpdate uid d) n).weekends =
          doc.weekends) ∧
      ((d.hotline.bind fun h => h.phone) = none →
        (applyContactUpdate doc (buildContactUpdate uid d) n).phone = doc.phone) ∧
      ((d.hotline.bind fun h => h.location) = none →
        (applyContactUpdate doc (buildContactUpdate uid d) n).location =
          doc.location) ∧
      ((d.socialLinks.bind fun s => s.facebook) = none →
        (applyContactUpdate doc (buildContactUpdate uid d) n).facebook =
          doc.facebook) ∧
      ((d.socialLinks.bind fun s => s.instagram) = none →
        (applyContactUpdate doc (buildContactUpdate uid d) n).instagram =
          doc.instagram) ∧
      ((d.socialLinks.bind fun s => s.twitter) = none →
        (applyContactUpdate doc (buildContactUpdate uid d) n).twitter =
          doc.twitter) ∧
      ((d.socialLinks.bind fun s => s.linkedin) = none →
        (applyContactUpdate doc (buildContactUpdate uid d) n).linkedin =
          doc.linkedin) ∧
      (buildContactUpdate uid d).updatedBy = uid) := by
  constructor
  · intro uid d doc n
    refine ⟨?_, ?_, ?_, ?_, ?_, ?_, ?_, ?_, ?_,
      rfl, rfl, rfl, rfl, rfl, rfl, rfl, rfl, rfl, rfl⟩ <;>
      (intro h; simp [applyTestimonialUpdate, buildTestimonialUpdate, h])
  · intro uid d doc n
    refine ⟨?_, ?_, ?_, ?_, ?_, ?_, ?_, ?_, rfl⟩ <;>
      (intro h; simp [applyContactUpdate, buildContactUpdate, h])

/-- An update payload that sets only `rating`. -/
def ratingOnlyPayload : UpdateTestimonialData :=
  ⟨none, none, none, none, none, none, none, some 5, none⟩

/-- A remote testimonial document as stored before an update. -/
def remoteDoc0 : RemoteTestimonial :=
  ⟨"Cara Client", "Acme", "CTO", "Site", "A message long enough", 3, true, "",
    "2024-01-01", "old-uid", 0⟩

/-- A contact update payload that sets only `hotline.phone`. -/
def phoneOnlyContact : UpdateContactData :=
  ⟨none, some ⟨some "999", none⟩, none⟩

/-- A remote contact document as stored before an update. -/
def remoteContact0 : RemoteContact :=
  ⟨"9-5", "closed", "123", "HQ", "fb", "ig", "tw", "li", "old-uid", 0⟩

/-- Witness for C9: updating only `rating` leaves `message` unchanged, and
updating only `hotline.phone` leaves `hotline.location` unchanged. -/
theorem c9_partial_update_frame_witness :
    (applyTestimonialUpdate remoteDoc0
        (buildTestimonialUpdate "admin-uid" ratingOnlyPayload) 7).message =
      remoteDoc0.message ∧
    (buildTestimonialUpdate "admin-uid" ratingOnlyPayload).rating = some 5 ∧
    (applyContactUpdate remoteContact0
        (buildContactUpdate "admin-uid" phoneOnlyContact) 7).location =
      remoteContact0.location ∧
    (applyContactUpdate remoteContact0
        (buildContactUpdate "admin-uid" phoneOnlyContact) 7).phone = "999" := by
  refine ⟨(c9_partial_update_frame.1 "admin-uid" ratingOnlyPayload remoteDoc0 7).1 rfl,
    rfl,
    (c9_partial_update_frame.2 "admin-uid" phoneOnlyContact remoteContact0 7).2.2.2.1 rfl,
    rfl⟩

theorem createTestimonial_rl_cases (gate : GateState) (now : Nat)
    (rl : RateLimitState) (d : CreateTestimonialData) :
    (createTestimonial gate now rl d).rlAfter = rl ∨
      checkRateLimit RATE_LIMITS now .create rl =
        .ok ((createTestimonial gate now rl d).rlAfter) := by
  unfold createTestimonial
  cases hv : validateOperation gate with
  | error e => exact Or.inl rfl
  | ok u =>
    cases hc : checkRateLimit RATE_LIMITS now .create rl with
    | error e => exact Or.inl rfl
    | ok rl' =>
      right
      dsimp only
      split
      · rfl
      · rfl

theorem updateTestimonial_rl_cases (gate : GateState) (now : Nat)
    (rl : RateLimitState) (id : String) (d : UpdateTestimonialData) :
    (updateTestimonial gate now rl id d).rlAfter = rl ∨
      checkRateLimit RATE_LIMITS now .update rl =
        .ok ((updateTestimonial gate now rl id d).rlAfter) := by
  unfold updateTestimonial
  cases hv : validateOperation gate with
  | error e => exact Or.inl rfl
  | ok u =>
    cases hc : checkRateLimit RATE_LIMITS now .update rl with
    | error e => exact Or.inl rfl
    | ok rl' =>
      right
      dsimp only
      split
      · rfl
      · rfl

theorem deleteTestimonial_rl_cases (gate : GateState) (now : Nat)
    (rl : RateLimitState) (id : String) :
    (deleteTestimonial gate now rl id).rlAfter = rl ∨
      checkRateLimit RATE_LIMITS now .delete rl =
        .ok ((deleteTestimonial gate now rl id).rlAfter) := by
  unfold deleteTestimonial
  cases hv : validateOperation gate with
  | error e => exact Or.inl rfl
  | ok u =>
    cases hc : checkRateLimit RATE_LIMITS now .delete rl with
    | error e => exact Or.inl rfl
    | ok rl' =>
      right
      dsimp only
      split
      · rfl
      · rfl

theorem createAboutMe_rl_cases (gate : GateState) (now : Nat)
    (rl : RateLimitState) (docs : List AboutMeDoc) (d : CreateAboutMeData) :
    (createAboutMe gate now rl docs d).rlAfter = rl ∨
      checkRateLimit RATE_LIMITS now .create rl =
        .ok ((createAboutMe gate now rl docs d).rlAfter) := by
  unfold createAboutMe
  cases hv : validateOperation gate with
  | error e => exact Or.inl rfl
  | ok u =>
    cases hc : checkRateLimit RATE_LIMITS now .create rl with
    | error e => exact Or.inl rfl
    | ok rl' =>
      right
      dsimp only
      repeat' split
      all_goals rfl

theorem createContact_rl_cases (urlValid : String → Bool) (gate : GateState)
    (now : Nat) (rl : RateLimitState) (docs : List ContactDoc)
    (d : CreateContactData) :
    (createContact urlValid gate now rl docs d).rlAfter = rl ∨
      checkRateLimit CONTACT_RATE_LIMITS now .create rl =
        .ok ((createContact urlValid gate now rl docs d).rlAfter) := by
  unfold createContact
  cases hv : validateOperation gate with
  | error e => exact Or.inl rfl
  | ok u =>
    cases hc : checkRateLimit CONTACT_RATE_LIMITS now .create rl with
    | error e => exact Or.inl rfl
    | ok rl' =>
      right
      dsimp only
      repeat' split
      all_goals rfl

theorem updateContact_rl_cases (urlValid : String → Bool) (gate : GateState)
    (now : Nat) (rl : RateLimitState) (id : String) (d : UpdateContactData) :
    (updateContact urlValid gate now rl id d).rlAfter = rl ∨
      checkRateLimit CONTACT_RATE_LIMITS now .update rl =
        .ok ((updateContact urlValid gate now rl id d).rlAfter) := by
  unfold updateContact
  cases hv : validateOperation gate with
  | error e => exact Or.inl rfl
  | ok u =>
    cases hc : checkRateLimit CONTACT_RATE_LIMITS now .update rl with
    | error e => exact Or.inl rfl
    | ok rl' =>
      right
      dsimp only
      repeat' split
      all_goals rfl

/-- C10: every modelled mutation touches at most its own operation kind's
rate-limit counter — whether it succeeds or is rejected by the gate, the
rate limiter, field validation or the existence pre-check, the counters of
the other kinds are unchanged; and a gate-rejected attempt (offline,
auth-checking or signed out) leaves the whole rate-limit state untouched,
because the gate runs before the rate-limit check. -/
theorem c10_rate_limit_isolation :
    (∀ gate now rl (d : CreateTestimonialData),
      getInfo (createTestimonial gate now rl d).rlAfter .update = getInfo rl .update ∧
      getInfo (createTestimonial gate now rl d).rlAfter .delete = getInfo rl .delete) ∧
    (∀ gate now rl id (d : UpdateTestimonialData),
      getInfo (updateTestimonial gate now rl id d).rlAfter .create = getInfo rl .create ∧
      getInfo (updateTestimonial gate now rl id d).rlAfter .delete = getInfo rl .delete) ∧
    (∀ gate now rl id,
      getInfo (deleteTestimonial gate now rl id).rlAfter .create = getInfo rl .create ∧
      getInfo (deleteTestimonial gate now rl id).rlAfter .update = getInfo rl .update) ∧
    (∀ gate now rl docs (d : CreateAboutMeData),
      getInfo (createAboutMe gate now rl docs d).rlAfter .update = getInfo rl .update ∧
      getInfo (createAboutMe gate now rl docs d).rlAfter .delete = getInfo rl .delete) ∧
    (∀ urlValid gate now rl docs (d : CreateContactData),
      getInfo (createContact urlValid gate now rl docs d).rlAfter .update =
        getInfo rl .update ∧
      getInfo (createContact urlValid gate now rl docs d).rlAfter .delete =
        getInfo rl .delete) ∧
    (∀ urlValid gate now rl id (d : UpdateContactData),
      getInfo (updateContact urlValid gate now rl id d).rlAfter .create =
        getInfo rl .create ∧
      getInfo (updateContact urlValid gate now rl id d).rlAfter .delete =
        getInfo rl .delete) ∧
    (∀ gate e, validateOperation gate = .error e →
      (∀ now rl (d : CreateTestimonialData),
        (createTestimonial gate now rl d).rlAfter = rl) ∧
      (∀ now rl id (du : UpdateTestimonialData),
        (updateTestimonial gate now rl id du).rlAfter = rl) ∧
      (∀ now rl id, (deleteTestimonial gate now rl id).rlAfter = rl) ∧
      (∀ now rl docs (ad : CreateAboutMeData),
        (createAboutMe gate now rl docs ad).rlAfter = rl) ∧
      (∀ urlValid now rl docs (cd : CreateContactData),
        (createContact urlValid gate now rl docs cd).rlAfter = rl) ∧
      (∀ urlValid now rl id (ud : UpdateContactData),
        (updateContact urlValid gate now rl id ud).rlAfter = rl)) := by
  refine ⟨?_, ?_, ?_, ?_, ?_, ?_, ?_⟩
  · intro gate now rl d
    rcases createTestimonial_rl_cases gate now rl d with h | h
    · rw [h]; exact ⟨rfl, rfl⟩
    · exact ⟨checkRateLimit_ok_other RATE_LIMITS now .create .update rl _ h (by decide),
        checkRateLimit_ok_other RATE_LIMITS now .create .delete rl _ h (by decide)⟩
  · intro gate now rl id d
    rcases updateTestimonial_rl_cases gate now rl id d with h | h
    · rw [h]; exact ⟨rfl, rfl⟩
    · exact ⟨checkRateLimit_ok_other RATE_LIMITS now .update .create rl _ h (by decide),
        checkRateLimit_ok_other RATE_LIMITS now .update .delete rl _ h (by decide)⟩
  · intro gate now rl id
    rcases deleteTestimonial_rl_cases gate now rl id with h | h
    · rw [h]; exact ⟨rfl, rfl⟩
    · exact ⟨checkRateLimit_ok_other RATE_LIMITS now .delete .create rl _ h (by decide),
        checkRateLimit_ok_other RATE_LIMITS now .delete .update rl _ h (by decide)⟩
  · intro gate now rl docs d
    rcases createAboutMe_rl_cases gate now rl docs d with h | h
    · rw [h]; exact ⟨rfl, rfl⟩
    · exact ⟨checkRateLimit_ok_other RATE_LIMITS now .create .update rl _ h (by decide),
        checkRateLimit_ok_other RATE_LIMITS now .create .delete rl _ h (by decide)⟩
  · intro urlValid gate now rl docs d
    rcases createContact_rl_cases urlValid gate now rl docs d with h | h
    · rw [h]; exact ⟨rfl, rfl⟩
    · exact ⟨checkRateLimit_ok_other CONTACT_RATE_LIMITS now .create .update rl _ h
          (by decide),
        checkRateLimit_ok_other CONTACT_RATE_LIMITS now .create .delete rl _ h
          (by decide)⟩
  · intro urlValid gate now rl id d
    rcases updateContact_rl_cases urlValid gate now rl id d with h | h
    · rw [h]; exact ⟨rfl, rfl⟩
    · exact ⟨checkRateLimit_ok_other CONTACT_RATE_LIMITS now .update .create rl _ h
          (by decide),
        checkRateLimit_ok_other CONTACT_RATE_LIMITS now .update .delete rl _ h
          (by decide)⟩
  · intro gate e hv
    refine ⟨?_, ?_, ?_, ?_, ?_, ?_⟩
    · intro now rl d
      unfold createTestimonial
      rw [hv]
    · intro now rl id du
      unfold updateTestimonial
      rw [hv]
    · intro now rl id
      unfold deleteTestimonial
      rw [hv]
    · intro now rl docs ad
      unfold createAboutMe
      rw [hv]
    · intro urlValid now rl docs cd
      unfold createContact
      rw [hv]
    · intro urlValid now rl id ud
      unfold updateContact
      rw [hv]

/-- Witness for C10: a successful create at the fresh state leaves the
update and delete counters untouched, and an offline create attempt leaves
the whole rate-limit state untouched. -/
theorem c10_rate_limit_isolation_witness :
    getInfo (createTestimonial goodGate 0 rlFresh shortMessageCreate).rlAfter
      Operation.update = getInfo rlFresh Operation.update ∧
    (createTestimonial offlineGate 0 rlFresh shortMessageCreate).rlAfter = rlFresh :=
  ⟨(c10_rate_limit_isolation.1 goodGate 0 rlFresh shortMessageCreate).1,
   ((c10_rate_limit_isolation.2.2.2.2.2.2 offlineGate offlineMessage rfl).1
      0 rlFresh shortMessageCreate)⟩

end Portfolio
